import Mathlib

/-!
Verification development for the pdf-processor repository (supplier
purchase-order PDF ingestion: template classification, line-item parsing,
catalog reconciliation, decimal-quantity normalization).

Shallow embedding conventions:

JS `number` values that the pipeline manipulates (quantities, prices, gram
weights) are modelled as rationals (ℚ).  `Math.round(x)` is JS round half
toward positive infinity, modelled as the integer floor of `x + 1/2`.
Optionally-present numeric object fields are modelled as `Option ℚ`; JS
truthiness (`undefined` and `0` are both falsy) is modelled by `truthy` /
`truthyD`.  JS strings are ASCII product data here; `toLowerCase`,
`toUpperCase`, `trim`, `includes`, `startsWith`, `endsWith` and
`split(/\s+/)` are modelled over the underlying character lists.

The conversion notes built by `convertDecimalQuantity` are template strings
in the source; each is modelled by one constructor of `ConversionNote`
carrying the interpolated values, so equality / distinctness of notes in the
model mirrors equality / distinctness of the rendered template strings
(distinct templates always render to distinct strings because their constant
suffixes differ).
-/

/-- JS `o || d` for an optionally-present numeric field (`undefined` and `0`
are falsy, any other number is truthy). -/
def truthyD (o : Option ℚ) (d : ℚ) : ℚ :=
  match o with
  | some v => if v = 0 then d else v
  | none => d

/-- JS truthiness test for an optionally-present numeric field. -/
def truthy (o : Option ℚ) : Bool :=
  match o with
  | some v => decide (v ≠ 0)
  | none => false

/-- JS `Math.round`: round half toward positive infinity. -/
def jsRound (q : ℚ) : ℤ := ⌊q + 1/2⌋

/-- ASCII lower-casing of one character, as `String.prototype.toLowerCase`
acts on the ASCII catalog data this program handles. -/
def lowerChar (c : Char) : Char :=
  if 'A' ≤ c ∧ c ≤ 'Z' then Char.ofNat (c.toNat + 32) else c

/-- ASCII upper-casing of one character (JS `toUpperCase`). -/
def upperChar (c : Char) : Char :=
  if 'a' ≤ c ∧ c ≤ 'z' then Char.ofNat (c.toNat - 32) else c

/-- JS `s.toLowerCase()`. -/
def jsToLower (s : String) : String := String.mk (s.data.map lowerChar)

/-- JS `s.toUpperCase()`. -/
def jsToUpper (s : String) : String := String.mk (s.data.map upperChar)

/-- JS `s.trim()`. -/
def jsTrim (s : String) : String :=
  String.mk (((s.data.dropWhile Char.isWhitespace).reverse.dropWhile Char.isWhitespace).reverse)

/-- Substring containment on character lists (worker for `jsIncludes`). -/
def containsSub (s pat : List Char) : Bool :=
  pat.isPrefixOf s ||
    match s with
    | [] => false
    | _ :: rest => containsSub rest pat

/-- JS `s.includes(pat)`. -/
def jsIncludes (s pat : String) : Bool := containsSub s.data pat.data

/-- JS `s.endsWith(pat)`. -/
def jsEndsWith (s pat : String) : Bool := pat.data.reverse.isPrefixOf s.data.reverse

/-- JS `s.startsWith(pat)`. -/
def jsStartsWith (s pat : String) : Bool := pat.data.isPrefixOf s.data

/-- Worker for `jsSplitWs`: accumulates the current token (reversed). -/
def wsTokensAux : List Char → List Char → List String
  | [], acc => if acc.isEmpty then [] else [String.mk acc.reverse]
  | c :: cs, acc =>
    if c.isWhitespace then
      if acc.isEmpty then wsTokensAux cs [] else String.mk acc.reverse :: wsTokensAux cs []
    else wsTokensAux cs (c :: acc)

/-- JS `s.split(/\s+/)` restricted to the tokens (the program filters the
result by `word.length > 2`, so the empty token JS yields on a
leading-whitespace input is immaterial and is not produced here). -/
def jsSplitWs (s : String) : List String := wsTokensAux s.data []

/-!
## Conversion engine (src/js/conversion-engine.js)
-/

/-- One entry of the product-conversions cache: the object
`{ eachWeight }` (grams per discrete unit) that
`convertDecimalQuantity` reads. -/
structure Conversion where
  eachWeight : ℚ
deriving DecidableEq

/-- The `conversionNote` template strings of `convertDecimalQuantity`, one
constructor per template literal, carrying the interpolated values:
`empty` for the empty note, `mayRoundIncorrectly` for
the no-conversion-available warning, `stillDecimal` for the
still-decimal-after-conversion warning, and `converted` for the success
note. -/
inductive ConversionNote
  | empty
  | mayRoundIncorrectly (originalQty : ℚ)
  | stillDecimal (originalQty roundedEachUnits : ℚ) (productCode : String)
  | converted (originalQty : ℚ) (wholeEachUnits : ℤ) (productCode : String) (eachWeight : ℚ)
deriving DecidableEq

/-- A line item as the conversion engine reads and mutates it.  Fields not
touched by the claims under verification (description, filename back
pointer, catalog bookkeeping of the parser) are omitted; `caseSize` is kept
because `updateProductField` can edit it. -/
structure Product where
  productCode : String
  quantity : ℚ
  unitPrice : ℚ
  netPrice : ℚ
  caseSize : String
  originalQuantity : Option ℚ
  originalUnitPrice : Option ℚ
  conversionApplied : Bool
  hasWarning : Bool
  conversionNote : ConversionNote
deriving DecidableEq

/-- `ConversionEngine.isDecimalQuantity`: JS `quantity % 1 !== 0`, which for
a (finite) numeric value holds exactly when the value is not an integer,
i.e. when its reduced denominator is not 1. -/
def isDecimalQuantity (quantity : ℚ) : Bool := quantity.den != 1

/-- The `originalQty` read at the top of `convertDecimalQuantity`:
`product.originalQuantity || product.quantity`. -/
def effOrigQty (product : Product) : ℚ := truthyD product.originalQuantity product.quantity

/-- `eachUnits` of `convertDecimalQuantity`: `kgToGrams / conversion.eachWeight`
with `kgToGrams = originalQty * 1000`. -/
def eachUnitsOf (originalQty eachWeight : ℚ) : ℚ := originalQty * 1000 / eachWeight

/-- `roundedEachUnits` of `convertDecimalQuantity`:
`Math.round(eachUnits * 100) / 100`. -/
def roundedEachOf (originalQty eachWeight : ℚ) : ℚ :=
  (jsRound (eachUnitsOf originalQty eachWeight * 100) : ℚ) / 100

/-- `ConversionEngine.convertDecimalQuantity` (conversion-engine.js lines
35-106).  The cache is the `productConversionsCache` map, modelled as an
association list.  Note that the success branch computes
`correctNetPrice = originalQty * product.unitPrice` from the CURRENT
`unitPrice` field, exactly as the source does at line 92. -/
def convertDecimalQuantity (cache : List (String × Conversion)) (product : Product) : Product :=
  let originalQty := effOrigQty product
  -- Reset conversion data
  let reset : Product :=
    { product with conversionApplied := false, conversionNote := ConversionNote.empty,
                   hasWarning := false }
  -- If quantity is whole number, no conversion needed
  if isDecimalQuantity originalQty = false then
    { reset with quantity := originalQty, conversionNote := ConversionNote.empty }
  else
    -- Check if product has conversion settings
    match cache.lookup product.productCode with
    | none =>
      -- No conversion available - flag as warning
      { reset with quantity := originalQty, hasWarning := true,
                   conversionNote := ConversionNote.mayRoundIncorrectly originalQty }
    | some conversion =>
      let roundedEachUnits := roundedEachOf originalQty conversion.eachWeight
      -- Check if conversion results in whole number (or very close to it)
      if 1/1000 < |roundedEachUnits - (jsRound roundedEachUnits : ℚ)| then
        -- Still decimal after conversion - flag as warning
        { reset with quantity := originalQty, hasWarning := true,
                     conversionNote :=
                       ConversionNote.stillDecimal originalQty roundedEachUnits
                         product.productCode }
      else
        -- Successful conversion to whole number
        let wholeEachUnits : ℚ := (jsRound roundedEachUnits : ℚ)
        let correctNetPrice := originalQty * product.unitPrice
        let newUnitPrice := correctNetPrice / wholeEachUnits
        { reset with quantity := wholeEachUnits, unitPrice := newUnitPrice,
                     netPrice := correctNetPrice, conversionApplied := true,
                     conversionNote :=
                       ConversionNote.converted originalQty (jsRound roundedEachUnits)
                         product.productCode conversion.eachWeight }

/-- An order as the conversion engine and the UI layer see it (fields other
than the line items and the running total are not referenced by the claims
under verification). -/
structure Order where
  products : List Product
  total : ℚ
deriving DecidableEq

/-- `order.products.reduce((sum, product) => sum + product.netPrice, 0)`. -/
def sumNetPrices (products : List Product) : ℚ :=
  products.foldl (fun sum product => sum + product.netPrice) 0

/-- The snapshot step at the head of `processOrderProducts`: store
`originalQuantity` / `originalUnitPrice` if they are not already (truthily)
present. -/
def snapshotOriginals (product : Product) : Product :=
  let p1 :=
    if truthy product.originalQuantity then product
    else { product with originalQuantity := some product.quantity }
  if truthy p1.originalUnitPrice then p1
  else { p1 with originalUnitPrice := some p1.unitPrice }

/-- `ConversionEngine.processOrderProducts` (conversion-engine.js lines
160-180): snapshot originals, convert every product, then recompute the
order total. -/
def processOrderProducts (cache : List (String × Conversion)) (order : Order) : Order :=
  let products :=
    order.products.map (fun product => convertDecimalQuantity cache (snapshotOriginals product))
  { order with products := products, total := sumNetPrices products }

/-- The three editable fields of `UIManager.updateProductField`.  A quantity
edit carries `parseFloat(value)` (`none` when the text does not parse, i.e.
JS `NaN`, which `|| 0` then maps to 0). -/
inductive FieldEdit
  | quantity (value : Option ℚ)
  | productCode (value : String)
  | caseSize (value : String)

/-- `UIManager.updateProductField` (src/unnamed/part_003 lines 822-867),
restricted to the order it mutates.  The quantity branch overwrites the
snapshots, re-runs the converter and recomputes `order.total`; the
product-code branch re-runs the converter but does NOT recompute the total;
the case-size branch only stores the value. -/
def updateProductField (cache : List (String × Conversion)) (order : Order)
    (productIndex : ℕ) (field : FieldEdit) : Order :=
  match order.products.get? productIndex with
  | none => order
  | some product =>
    match field with
    | FieldEdit.quantity value =>
      let newQuantity := truthyD value 0
      let originalUnitPrice := truthyD product.originalUnitPrice product.unitPrice
      let product2 :=
        { product with originalQuantity := some newQuantity,
                       originalUnitPrice := some originalUnitPrice }
      let convertedProduct := convertDecimalQuantity cache product2
      let products := order.products.set productIndex convertedProduct
      { order with products := products, total := sumNetPrices products }
    | FieldEdit.productCode value =>
      let product2 := { product with productCode := jsToUpper value }
      let convertedProduct := convertDecimalQuantity cache product2
      { order with products := order.products.set productIndex convertedProduct }
    | FieldEdit.caseSize value =>
      { order with products := order.products.set productIndex { product with caseSize := value } }

/-!
## Catalog reverse lookup (src/unnamed/part_004, FirebaseConfig)
-/

/-- The record returned by `findProductByDescription` on a reverse match
(`originalSku` is set to the query description in the source, kept for
reference). -/
structure ReverseMatch where
  sku : String
  description : String
  matched : String
  originalSku : String
deriving DecidableEq

/-- Strategy 2 of `findProductByDescription` (the hand-authored
special-case table). -/
def simpleTest (searchDesc catalogDesc : String) : Bool :=
  let catalog := jsToLower catalogDesc
  -- PRIORITY: Handle herbs - match to base herb name, NOT "dust" versions
  if searchDesc == ("herb rosemary") || searchDesc == ("rosemary") then catalog == ("rosemary")
  else if searchDesc == ("herb thyme") || searchDesc == ("thyme") then catalog == ("thyme")
  else if searchDesc == ("herb dill") || searchDesc == ("dill") then catalog == ("dill")
  -- Handle melon sizes - all sizes map to same product
  else if jsIncludes searchDesc ("watermelon") then jsIncludes catalog ("watermelon")
  else if jsIncludes searchDesc ("honeydew") then jsIncludes catalog ("honeydew")
  else if jsIncludes searchDesc ("galia") then jsIncludes catalog ("galia")
  else if jsIncludes searchDesc ("cantaloupe") then jsIncludes catalog ("cantaloupe")
  -- Handle grape variations
  else if (searchDesc == ("grape red") || jsIncludes searchDesc ("grape red"))
          && jsIncludes catalog ("black") then true
  else if (jsIncludes searchDesc ("grape green") || jsIncludes searchDesc ("grapes green"))
          && jsIncludes catalog ("white") then true
  -- Handle specific mappings
  else if jsIncludes searchDesc ("kiwi") then catalog == ("kiwi")
  else if jsIncludes searchDesc ("mango") then catalog == ("mango")
  else if jsIncludes searchDesc ("easy peeler") then jsIncludes catalog ("easy peeler")
  -- Explicitly exclude "dust" versions for herbs
  else if (jsIncludes searchDesc ("rosemary") || jsIncludes searchDesc ("thyme"))
          && jsIncludes catalog ("dust") then false
  else false

/-- Strategy 3 of `findProductByDescription` (keyword matching). -/
def keywordsTest (searchDesc catalogDesc : String) : Bool :=
  let catalog := jsToLower catalogDesc
  -- Skip "dust" versions for herb searches
  if (jsIncludes searchDesc ("rosemary") || jsIncludes searchDesc ("thyme"))
     && jsIncludes catalog ("dust") then false
  -- Skip melon / grape queries - handled in the simple strategy
  else if jsIncludes searchDesc ("melon") || jsIncludes searchDesc ("grape") then false
  else
    let keywords := (jsSplitWs searchDesc).filter (fun word => 2 < word.length)
    let found := keywords.filter (fun keyword => jsIncludes catalog keyword)
    0 < found.length && catalogDesc.length < 50

/-- The `searchStrategies` array of `findProductByDescription`, in its
priority order (strategy 4, the partial tier, is `return false` in the
source: reserved, currently empty). -/
def searchStrategies (searchDesc : String) : List (String × (String → Bool)) :=
  [("exact", fun catalogDesc => jsTrim (jsToLower catalogDesc) == searchDesc),
   ("simple", fun catalogDesc => simpleTest searchDesc catalogDesc),
   ("keywords", fun catalogDesc => keywordsTest searchDesc catalogDesc),
   ("partial", fun _ => false)]

/-- Match prioritization inside `findProductByDescription`: prefer a SKU
ending in E (Each), then one ending in B (Box), then the first match. -/
def pickPrioritized (ms : List (String × String)) (m0 : String × String) : String × String :=
  match ms.find? (fun m => jsEndsWith m.1 ("E")) with
  | some m => m
  | none =>
    match ms.find? (fun m => jsEndsWith m.1 ("B")) with
    | some m => m
    | none => m0

/-- The strategy loop of `findProductByDescription`: try each strategy in
priority order, stop at the first one with at least one match over the
catalog cache (an association list in Map insertion order). -/
def tryStrategies (catalog : List (String × String)) (description : String) :
    List (String × (String → Bool)) → Option ReverseMatch
  | [] => none
  | (name, test) :: rest =>
    match catalog.filter (fun entry => test entry.2) with
    | [] => tryStrategies catalog description rest
    | m0 :: ms =>
      let best := pickPrioritized (m0 :: ms) m0
      some { sku := best.1, description := best.2, matched := "reverse-" ++ name,
             originalSku := description }

/-- `FirebaseConfig.findProductByDescription` (src/unnamed/part_004 lines
492-637). -/
def findProductByDescription (catalog : List (String × String)) (description : String) :
    Option ReverseMatch :=
  let searchDesc := jsTrim (jsToLower description)
  tryStrategies catalog description (searchStrategies searchDesc)

/-- The record `FirebaseConfig.getProductDescription` returns (the source
also forwards `originalSku` on the reverse path; only these three fields
are ever read by callers). -/
structure LookupResult where
  sku : String
  description : String
  matched : String
deriving DecidableEq

/-- JS `sku.replace(/[EKB]$/, '')`. -/
def stripUnitSuffix (sku : String) : String :=
  if jsEndsWith sku ("E") || jsEndsWith sku ("K") || jsEndsWith sku ("B") then sku.dropRight 1
  else sku

/-- `FirebaseConfig.getProductDescription` (src/unnamed/part_004 lines
441-487): direct catalog lookup, then reverse description lookup when a
description longer than 2 characters is available, then the static
fallback mapping table, then a `none` result.  The time-based cache
expiry / reload is not modelled: the catalog argument stands for the
loaded, fresh cache, so the reload-then-retry performs the same lookup. -/
def getProductDescription (catalog mappings : List (String × String))
    (sku productDescription : String) : LookupResult :=
  match catalog.lookup sku with
  | some description => { sku := sku, description := description, matched := "direct" }
  | none =>
    match (if productDescription != ("") && 2 < productDescription.length
           then findProductByDescription catalog productDescription
           else none) with
    | some reverseMatch =>
      { sku := reverseMatch.sku, description := reverseMatch.description,
        matched := reverseMatch.matched }
    | none =>
      let baseCode := stripUnitSuffix sku
      match mappings.lookup baseCode with
      | some description => { sku := sku, description := description, matched := "fallback" }
      | none =>
        { sku := sku,
          description := if productDescription != ("") then productDescription else sku,
          matched := "none" }

/-!
## Catalog enhancement of parsed line items (src/unnamed/part_001 and the
updated copy in src/unnamed/part_003)
-/

/-- The line-item fields catalog enhancement reads and writes. -/
structure EnhProduct where
  productCode : String
  description : String
  originalProductCode : Option String
  catalogLookup : Bool
  matchType : String
deriving DecidableEq

/-- `PDFParser.enhanceProductWithCatalog` (src/unnamed/part_001 lines
416-474): on a reverse match with a different SKU it first saves the
pre-resolution code into `originalProductCode` and then replaces
`productCode`. -/
def enhanceProductWithCatalog (catalog mappings : List (String × String))
    (product : EnhProduct) : EnhProduct :=
  if product.productCode == ("") then product
  else
    let cleanDescription :=
      if jsStartsWith product.description ("- ") then product.description.drop 2
      else product.description
    let result := getProductDescription catalog mappings product.productCode cleanDescription
    if result.matched != ("none") then
      let p1 :=
        if jsStartsWith result.matched ("reverse-") && result.sku != product.productCode then
          { product with originalProductCode := some product.productCode,
                         productCode := result.sku }
        else product
      let p2 :=
        if result.description != ("") && product.description.length < result.description.length
        then { p1 with description := result.description }
        else p1
      { p2 with catalogLookup := true, matchType := result.matched }
    else
      { product with catalogLookup := false, matchType := "none" }

/-- The updated copy of `enhanceProductWithCatalog` shipped in
src/unnamed/part_003 (lines 5-51).  It differs from the part_001 copy in
two ways: it passes the raw description (no leading "- " cleanup), and on
a SKU replacement it overwrites `productCode` BEFORE storing
`originalProductCode`, so `originalProductCode` receives the new SKU (the
adjacent source comment still says it keeps the original for reference). -/
def enhanceProductWithCatalogUpd (catalog mappings : List (String × String))
    (product : EnhProduct) : EnhProduct :=
  if product.productCode == ("") then product
  else
    let result := getProductDescription catalog mappings product.productCode product.description
    if result.matched != ("none") then
      let p1 :=
        if jsStartsWith result.matched ("reverse-") && result.sku != product.productCode then
          let q := { product with productCode := result.sku }
          { q with originalProductCode := some q.productCode }
        else product
      let p2 :=
        if result.description != ("") && product.description.length < result.description.length
        then { p1 with description := result.description }
        else p1
      { p2 with catalogLookup := true, matchType := result.matched }
    else
      { product with catalogLookup := false, matchType := "none" }

/-!
## Template classification and line-item acceptance (src/unnamed/part_002)
-/

/-- The three parsing templates. -/
inductive TemplateType
  | pickingNote
  | consolidated
  | standard
deriving DecidableEq

/-- The template-classification step of `PDFParser.processPDF`
(src/unnamed/part_002 lines 27-37; the copy in src/unnamed/part_001 lines
492-503 is identical): picking note is checked first, then consolidated,
standard is the fallback.  Total by construction - there is no error
case. -/
def classifyTemplate (text : String) : TemplateType :=
  let isConsolidated := jsIncludes text ("Consolidated Purchase Order")
  let isPickingNote := jsIncludes text ("Picking Note")
  if isPickingNote then TemplateType.pickingNote
  else if isConsolidated then TemplateType.consolidated
  else TemplateType.standard

/-- A candidate line item as built from one tabular-pattern match in
`parseConsolidatedOrder` / `parseStandardOrder` (the regex capture groups
`quantity, description, code, caseSize, unitPrice, netPrice`). -/
structure RawProduct where
  quantity : ℚ
  description : String
  productCode : String
  caseSize : String
  unitPrice : ℚ
  netPrice : ℚ
deriving DecidableEq

/-- The loop body of the product-extraction `while` in
`parseConsolidatedOrder` (src/unnamed/part_002 lines 361-380): a candidate
is appended (and its net price added to the running total) only when
`quantity > 0 && productCode && unitPrice > 0`. -/
def consolidatedPush (acc : List RawProduct × ℚ) (product : RawProduct) : List RawProduct × ℚ :=
  if 0 < product.quantity ∧ product.productCode ≠ "" ∧ 0 < product.unitPrice then
    (acc.1 ++ [product], acc.2 + product.netPrice)
  else acc

/-- The product-extraction stage of `parseConsolidatedOrder`
(src/unnamed/part_002 lines 357-385), over the candidate streams its two
patterns produce: run the guarded push over the first pattern's candidates
and, only if nothing was accepted, also over the second pattern's. -/
def parseConsolidatedProducts (candidates1 candidates2 : List RawProduct) :
    List RawProduct × ℚ :=
  let afterFirst := candidates1.foldl consolidatedPush ([], 0)
  if 0 < afterFirst.1.length then afterFirst
  else candidates2.foldl consolidatedPush afterFirst

/-- The product-extraction stage of `parseStandardOrder`
(src/unnamed/part_002 lines 438-455): every candidate its tabular pattern
matches is accepted unconditionally. -/
def parseStandardProducts (candidates : List RawProduct) : List RawProduct × ℚ :=
  candidates.foldl (fun acc product => (acc.1 ++ [product], acc.2 + product.netPrice)) ([], 0)

/-!
## Concrete sample data used by the claim instances
-/

/-- Conversion cache holding one entry: product X at 200 g per each. -/
def cacheX200 : List (String × Conversion) := [("X", { eachWeight := 200 })]

/-- Conversion cache holding one entry: product Y at 333 g per each. -/
def cacheY333 : List (String × Conversion) := [("Y", { eachWeight := 333 })]

/-- A freshly-parsed, arithmetically consistent line item: 0.6 kg of X at
10 per kg, net price 6, snapshots not yet taken. -/
def freshItemX : Product :=
  { productCode := "X", quantity := 3/5, unitPrice := 10, netPrice := 6, caseSize := "",
    originalQuantity := none, originalUnitPrice := none,
    conversionApplied := false, hasWarning := false, conversionNote := ConversionNote.empty }

/-- `freshItemX` after `processOrderProducts` has snapshotted its
originals. -/
def snappedItemX : Product :=
  { freshItemX with originalQuantity := some (3/5), originalUnitPrice := some 10 }

/-- `snappedItemX` after one successful conversion: 3 each-units at 2 per
unit, net price 6 preserved. -/
def convertedItemX : Product :=
  { snappedItemX with
      quantity := 3, unitPrice := 2, netPrice := 6, conversionApplied := true,
      conversionNote := ConversionNote.converted (3/5) 3 ("X") 200 }

/-- What a SECOND run of `convertDecimalQuantity` produces from
`convertedItemX`: the engine re-derives the net price from the
already-rescaled unit price (0.6 * 2 = 1.2), corrupting it. -/
def reconvertedItemX : Product :=
  { snappedItemX with
      quantity := 3, unitPrice := 2/5, netPrice := 6/5, conversionApplied := true,
      conversionNote := ConversionNote.converted (3/5) 3 ("X") 200 }

/-- A snapshotted line item of 0.5 kg of Y at 10 per kg: against
`cacheY333` the conversion attempt yields 1.50 each-units, which is still
decimal. -/
def halfKiloItemY : Product :=
  { productCode := "Y", quantity := 1/2, unitPrice := 10, netPrice := 5, caseSize := "",
    originalQuantity := some (1/2), originalUnitPrice := some 10,
    conversionApplied := false, hasWarning := false, conversionNote := ConversionNote.empty }

/-- The line item of the conversion-correctness test vector: 0.6 kg of X
with symbolic unit price and net price, snapshots taken. -/
def c3Item (u n : ℚ) : Product :=
  { productCode := "X", quantity := 3/5, unitPrice := u, netPrice := n, caseSize := "",
    originalQuantity := some (3/5), originalUnitPrice := some u,
    conversionApplied := false, hasWarning := false, conversionNote := ConversionNote.empty }

/-- The two-entry catalog of the reverse-lookup test vector. -/
def rosemaryCatalog : List (String × String) := [("R", "Rosemary"), ("HM107E", "Rosemary Dust")]

/-- A parsed line item whose code is unknown to the catalog but whose
description reverse-resolves. -/
def roseItem : EnhProduct :=
  { productCode := "ROSE1", description := "Herb Rosemary", originalProductCode := none,
    catalogLookup := false, matchType := "" }

/-- A tabular-pattern candidate that passes the consolidated acceptance
guard. -/
def acceptedCandidate : RawProduct :=
  { quantity := 2, description := "KIWI", productCode := "KW", caseSize := "1xBox",
    unitPrice := 3, netPrice := 6 }

/-- A tabular-pattern candidate with a zero unit price: rejected by the
consolidated guard, accepted unconditionally by the standard parser. -/
def zeroPriceCandidate : RawProduct :=
  { quantity := 2, description := "HERB", productCode := "HB", caseSize := "1xBox",
    unitPrice := 0, netPrice := 0 }

/-!
## Branch characterizations of `convertDecimalQuantity`
-/

/-- Whole-number branch: the original quantity is integral. -/
theorem convertDecimalQuantity_whole (cache : List (String × Conversion)) (p : Product)
    (h : isDecimalQuantity (effOrigQty p) = false) :
    convertDecimalQuantity cache p =
      { p with conversionApplied := false, hasWarning := false,
               conversionNote := ConversionNote.empty, quantity := effOrigQty p } := by
  simp [convertDecimalQuantity, h]

/-- No-conversion-entry branch: fractional quantity, no cache entry. -/
theorem convertDecimalQuantity_noEntry (cache : List (String × Conversion)) (p : Product)
    (h1 : isDecimalQuantity (effOrigQty p) = true)
    (h2 : cache.lookup p.productCode = none) :
    convertDecimalQuantity cache p =
      { p with conversionApplied := false, hasWarning := true,
               conversionNote := ConversionNote.mayRoundIncorrectly (effOrigQty p),
               quantity := effOrigQty p } := by
  simp [convertDecimalQuantity, h1, h2]

/-- Still-decimal branch: fractional quantity, cache entry found, rounded
each-units more than 0.001 away from the nearest whole number. -/
theorem convertDecimalQuantity_stillDecimal (cache : List (String × Conversion)) (p : Product)
    (c : Conversion)
    (h1 : isDecimalQuantity (effOrigQty p) = true)
    (h2 : cache.lookup p.productCode = some c)
    (h3 : 1/1000 <
          |roundedEachOf (effOrigQty p) c.eachWeight -
            (jsRound (roundedEachOf (effOrigQty p) c.eachWeight) : ℚ)|) :
    convertDecimalQuantity cache p =
      { p with conversionApplied := false, hasWarning := true,
               conversionNote :=
                 ConversionNote.stillDecimal (effOrigQty p)
                   (roundedEachOf (effOrigQty p) c.eachWeight) p.productCode,
               quantity := effOrigQty p } := by
  rw [one_div] at h3
  simp [convertDecimalQuantity, h1, h2, one_div, h3]

/-- Success branch: fractional quantity, cache entry found, rounded
each-units within 0.001 of a whole number. -/
theorem convertDecimalQuantity_success (cache : List (String × Conversion)) (p : Product)
    (c : Conversion)
    (h1 : isDecimalQuantity (effOrigQty p) = true)
    (h2 : cache.lookup p.productCode = some c)
    (h3 : ¬ (1/1000 <
             |roundedEachOf (effOrigQty p) c.eachWeight -
               (jsRound (roundedEachOf (effOrigQty p) c.eachWeight) : ℚ)|)) :
    convertDecimalQuantity cache p =
      { p with conversionApplied := true, hasWarning := false,
               conversionNote :=
                 ConversionNote.converted (effOrigQty p)
                   (jsRound (roundedEachOf (effOrigQty p) c.eachWeight)) p.productCode
                   c.eachWeight,
               quantity := (jsRound (roundedEachOf (effOrigQty p) c.eachWeight) : ℚ),
               unitPrice :=
                 effOrigQty p * p.unitPrice /
                   (jsRound (roundedEachOf (effOrigQty p) c.eachWeight) : ℚ),
               netPrice := effOrigQty p * p.unitPrice } := by
  rw [one_div, not_lt] at h3
  simp [convertDecimalQuantity, h1, h2, one_div, h3]

/-!
## Small evaluation facts
-/

theorem truthyD_some_of_ne (v d : ℚ) (h : v ≠ 0) : truthyD (some v) d = v := by
  simp [truthyD, h]

theorem truthy_some_of_ne (v : ℚ) (h : v ≠ 0) : truthy (some v) = true := by
  simp [truthy, h]

theorem snapshotOriginals_of_truthy (p : Product)
    (h1 : truthy p.originalQuantity = true) (h2 : truthy p.originalUnitPrice = true) :
    snapshotOriginals p = p := by
  simp [snapshotOriginals, h1, h2]

theorem isDecimal_threeFifths : isDecimalQuantity (3/5) = true := by
  have h : ((3:ℚ)/5).den = 5 := by norm_num
  simp [isDecimalQuantity, h]

theorem isDecimal_half : isDecimalQuantity (1/2) = true := by
  have h : ((1:ℚ)/2).den = 2 := by norm_num
  simp [isDecimalQuantity, h]

theorem roundedEachOf_threeFifths_200 : roundedEachOf (3/5) 200 = 3 := by
  norm_num [roundedEachOf, eachUnitsOf, jsRound]

theorem roundedEachOf_half_333 : roundedEachOf (1/2) 333 = 3/2 := by
  norm_num [roundedEachOf, eachUnitsOf, jsRound]

theorem jsRound_three : jsRound 3 = 3 := by norm_num [jsRound]

theorem jsRound_threeHalves : jsRound (3/2) = 2 := by norm_num [jsRound]

/-- The 0.6 kg / 200 g conversion lands exactly on a whole number. -/
theorem notStill_threeFifths_200 :
    ¬ (1/1000 < |roundedEachOf (3/5) 200 - (jsRound (roundedEachOf (3/5) 200) : ℚ)|) := by
  rw [roundedEachOf_threeFifths_200, jsRound_three]
  norm_num

/-- The 0.5 kg / 333 g conversion stays 0.5 away from a whole number. -/
theorem still_half_333 :
    1/1000 < |roundedEachOf (1/2) 333 - (jsRound (roundedEachOf (1/2) 333) : ℚ)| := by
  rw [roundedEachOf_half_333, jsRound_threeHalves]
  have h : (3/2 : ℚ) - ((2:ℤ) : ℚ) = -(1/2) := by push_cast; norm_num
  rw [h, abs_neg, abs_of_pos (by norm_num : (0:ℚ) < 1/2)]
  norm_num

theorem effOrigQty_snappedItemX : effOrigQty snappedItemX = 3/5 := by
  simp only [effOrigQty, snappedItemX, freshItemX]
  exact truthyD_some_of_ne _ _ (by norm_num)

theorem effOrigQty_convertedItemX : effOrigQty convertedItemX = 3/5 := by
  simp only [effOrigQty, convertedItemX, snappedItemX, freshItemX]
  exact truthyD_some_of_ne _ _ (by norm_num)

/-- First conversion of the snapshotted 0.6 kg item: 3 units at 2, net 6. -/
theorem convert_snappedItemX :
    convertDecimalQuantity cacheX200 snappedItemX = convertedItemX := by
  have h1 : isDecimalQuantity (effOrigQty snappedItemX) = true := by
    rw [effOrigQty_snappedItemX]; exact isDecimal_threeFifths
  have h2 : cacheX200.lookup snappedItemX.productCode = some { eachWeight := 200 } := rfl
  have h3 : ¬ (1/1000 <
      |roundedEachOf (effOrigQty snappedItemX) (200 : ℚ) -
        (jsRound (roundedEachOf (effOrigQty snappedItemX) (200 : ℚ)) : ℚ)|) := by
    rw [effOrigQty_snappedItemX]; exact notStill_threeFifths_200
  rw [convertDecimalQuantity_success cacheX200 snappedItemX { eachWeight := 200 } h1 h2 h3]
  rw [effOrigQty_snappedItemX] at h1 h3 ⊢
  simp only [convertedItemX, snappedItemX, freshItemX, roundedEachOf_threeFifths_200,
    jsRound_three]
  norm_num

/-- Second conversion of the already-converted item: the net price is
re-derived from the rescaled unit price and becomes 1.2. -/
theorem convert_convertedItemX :
    convertDecimalQuantity cacheX200 convertedItemX = reconvertedItemX := by
  have h1 : isDecimalQuantity (effOrigQty convertedItemX) = true := by
    rw [effOrigQty_convertedItemX]; exact isDecimal_threeFifths
  have h2 : cacheX200.lookup convertedItemX.productCode = some { eachWeight := 200 } := rfl
  have h3 : ¬ (1/1000 <
      |roundedEachOf (effOrigQty convertedItemX) (200 : ℚ) -
        (jsRound (roundedEachOf (effOrigQty convertedItemX) (200 : ℚ)) : ℚ)|) := by
    rw [effOrigQty_convertedItemX]; exact notStill_threeFifths_200
  rw [convertDecimalQuantity_success cacheX200 convertedItemX { eachWeight := 200 } h1 h2 h3]
  rw [effOrigQty_convertedItemX] at h1 h3 ⊢
  simp only [reconvertedItemX, convertedItemX, snappedItemX, freshItemX,
    roundedEachOf_threeFifths_200, jsRound_three]
  norm_num

/-- Snapshotting the fresh item stores its quantity and unit price. -/
theorem snapshot_freshItemX : snapshotOriginals freshItemX = snappedItemX := by
  simp [snapshotOriginals, truthy, freshItemX, snappedItemX]

theorem snapshot_convertedItemX : snapshotOriginals convertedItemX = convertedItemX := by
  refine snapshotOriginals_of_truthy _ ?_ ?_
  · simp only [convertedItemX, snappedItemX, freshItemX]
    exact truthy_some_of_ne _ (by norm_num)
  · simp only [convertedItemX, snappedItemX, freshItemX]
    exact truthy_some_of_ne _ (by norm_num)

/-- One pass of `processOrderProducts` over the fresh consistent item:
snapshots are taken, the conversion succeeds, the total is recomputed. -/
theorem processOnce_eval :
    processOrderProducts cacheX200 { products := [freshItemX], total := 0 } =
      { products := [convertedItemX], total := 6 } := by
  simp only [processOrderProducts, List.map, snapshot_freshItemX, convert_snappedItemX,
    sumNetPrices, List.foldl]
  simp [convertedItemX, snappedItemX, freshItemX]

/-- A second pass of `processOrderProducts` over the same order corrupts
the net price: the success branch re-reads the rescaled unit price. -/
theorem processTwice_eval :
    processOrderProducts cacheX200 { products := [convertedItemX], total := 6 } =
      { products := [reconvertedItemX], total := 6/5 } := by
  simp only [processOrderProducts, List.map, snapshot_convertedItemX, convert_convertedItemX,
    sumNetPrices, List.foldl]
  simp [reconvertedItemX, snappedItemX, freshItemX]

/-- Claim C10: every call to `convertDecimalQuantity` first resets the
conversion flags, so its result is in exactly one of the three states
whole (no flags, empty note), warning (`hasWarning` without
`conversionApplied`) or converted (`conversionApplied` without
`hasWarning`); in particular the two flags are never both set and stale
flags never survive a call. -/
theorem c10_flag_states (cache : List (String × Conversion)) (p : Product) :
    (¬ ((convertDecimalQuantity cache p).hasWarning = true ∧
        (convertDecimalQuantity cache p).conversionApplied = true)) ∧
    (((convertDecimalQuantity cache p).hasWarning = false ∧
      (convertDecimalQuantity cache p).conversionApplied = false ∧
      (convertDecimalQuantity cache p).conversionNote = ConversionNote.empty) ∨
     ((convertDecimalQuantity cache p).hasWarning = true ∧
      (convertDecimalQuantity cache p).conversionApplied = false) ∨
     ((convertDecimalQuantity cache p).conversionApplied = true ∧
      (convertDecimalQuantity cache p).hasWarning = false)) := by
  cases hb : isDecimalQuantity (effOrigQty p) with
  | false => rw [convertDecimalQuantity_whole cache p hb]; simp
  | true =>
    cases hl : List.lookup p.productCode cache with
    | none => rw [convertDecimalQuantity_noEntry cache p hb hl]; simp
    | some c =>
      by_cases h3 : 1/1000 < |roundedEachOf (effOrigQty p) c.eachWeight -
          (jsRound (roundedEachOf (effOrigQty p) c.eachWeight) : ℚ)|
      · rw [convertDecimalQuantity_stillDecimal cache p c hb hl h3]; simp
      · rw [convertDecimalQuantity_success cache p c hb hl h3]; simp

/-- Claim C1 (amended): the price invariant
`netPrice = originalQuantity * originalUnitPrice` holds after
normalization - exactly, hence within any epsilon - whenever the item
enters the normalizer with `unitPrice` still equal to its
`originalUnitPrice` snapshot and with a consistent net price, which is
the state `processOrderProducts` establishes on the first normalization
of a freshly-parsed consistent row.  (As stated the claim fails: the
success branch reads the CURRENT `unitPrice`, so it does not survive
re-normalization after rescaling; see the counterexample.) -/
theorem c1_price_invariant_amended (cache : List (String × Conversion)) (p : Product)
    (oq oup : ℚ)
    (hq : p.originalQuantity = some oq) (hq0 : oq ≠ 0)
    (hu : p.originalUnitPrice = some oup)
    (hup : p.unitPrice = oup) (hnet : p.netPrice = oq * oup) :
    (convertDecimalQuantity cache p).netPrice = oq * oup ∧
    (convertDecimalQuantity cache p).originalQuantity = some oq ∧
    (convertDecimalQuantity cache p).originalUnitPrice = some oup := by
  have hoq : effOrigQty p = oq := by
    rw [effOrigQty, hq]; exact truthyD_some_of_ne _ _ hq0
  cases hb : isDecimalQuantity (effOrigQty p) with
  | false =>
    rw [convertDecimalQuantity_whole cache p hb]
    exact ⟨hnet, hq, hu⟩
  | true =>
    cases hl : List.lookup p.productCode cache with
    | none =>
      rw [convertDecimalQuantity_noEntry cache p hb hl]
      exact ⟨hnet, hq, hu⟩
    | some c =>
      by_cases h3 : 1/1000 < |roundedEachOf (effOrigQty p) c.eachWeight -
          (jsRound (roundedEachOf (effOrigQty p) c.eachWeight) : ℚ)|
      · rw [convertDecimalQuantity_stillDecimal cache p c hb hl h3]
        exact ⟨hnet, hq, hu⟩
      · rw [convertDecimalQuantity_success cache p c hb hl h3]
        refine ⟨?_, hq, hu⟩
        show effOrigQty p * p.unitPrice = oq * oup
        rw [hoq, hup]

/-- Claim C1, counterexample to the claim as stated: run
`processOrderProducts` twice over an order holding one consistent 0.6 kg
item (the second run is a normalization performed after the snapshots
exist, exactly the situation the claim quantifies over).  The item comes
out with `netPrice = 1.2` while
`originalQuantity * originalUnitPrice = 6`, an error far beyond 1e-6: the
equality does NOT survive the unit-price rescaling of the first run. -/
theorem c1_price_invariant_counterexample :
    (processOrderProducts cacheX200 (processOrderProducts cacheX200
        { products := [freshItemX], total := 0 })).products = [reconvertedItemX] ∧
    reconvertedItemX.netPrice = 6/5 ∧
    reconvertedItemX.originalQuantity = some (3/5) ∧
    reconvertedItemX.originalUnitPrice = some 10 ∧
    ¬ (|(6/5 : ℚ) - (3/5) * 10| ≤ 1/1000000) := by
  refine ⟨?_, ?_, ?_, ?_, ?_⟩
  · rw [processOnce_eval, processTwice_eval]
  · simp [reconvertedItemX, snappedItemX, freshItemX]
  · simp [reconvertedItemX, snappedItemX, freshItemX]
  · simp [reconvertedItemX, snappedItemX, freshItemX]
  · have h : (6/5 : ℚ) - (3/5) * 10 = -(24/5) := by norm_num
    rw [h, abs_neg, abs_of_pos (by norm_num : (0:ℚ) < 24/5)]
    norm_num

/-- Witness for the amended claim C1 at the concrete snapshotted 0.6 kg
item. -/
theorem c1_price_invariant_witness :
    (convertDecimalQuantity cacheX200 snappedItemX).netPrice = (3/5) * 10 ∧
    (convertDecimalQuantity cacheX200 snappedItemX).originalQuantity = some (3/5) ∧
    (convertDecimalQuantity cacheX200 snappedItemX).originalUnitPrice = some 10 :=
  c1_price_invariant_amended cacheX200 snappedItemX (3/5) 10 rfl (by norm_num) rfl rfl
    (by norm_num [snappedItemX, freshItemX])

/-- Claim C2: `convertDecimalQuantity` is NOT idempotent.  On the
snapshotted 0.6 kg item the first call yields 3 units at 2 (net 6); the
second call, with no intervening edit, re-derives the net price from the
already-rescaled `unitPrice` (line 92 reads `product.unitPrice`, not the
`originalUnitPrice` snapshot its own comment and the spec promise) and
yields 3 units at 0.4 (net 1.2). -/
theorem c2_not_idempotent :
    convertDecimalQuantity cacheX200 snappedItemX = convertedItemX ∧
    convertDecimalQuantity cacheX200 (convertDecimalQuantity cacheX200 snappedItemX) =
      reconvertedItemX ∧
    convertDecimalQuantity cacheX200 (convertDecimalQuantity cacheX200 snappedItemX) ≠
      convertDecimalQuantity cacheX200 snappedItemX ∧
    convertedItemX.netPrice = 6 ∧ reconvertedItemX.netPrice = 6/5 ∧
    convertedItemX.unitPrice = 2 ∧ reconvertedItemX.unitPrice = 2/5 := by
  have hne : reconvertedItemX ≠ convertedItemX := by
    intro h
    have hnp := congrArg Product.netPrice h
    simp [reconvertedItemX, convertedItemX, snappedItemX, freshItemX] at hnp
    norm_num at hnp
  refine ⟨convert_snappedItemX, ?_, ?_, ?_, ?_, ?_, ?_⟩
  · rw [convert_snappedItemX, convert_convertedItemX]
  · rw [convert_snappedItemX, convert_convertedItemX]; exact hne
  · simp [convertedItemX, snappedItemX, freshItemX]
  · simp [reconvertedItemX, snappedItemX, freshItemX]
  · simp [convertedItemX, snappedItemX, freshItemX]
  · simp [reconvertedItemX, snappedItemX, freshItemX]

/-- Claim C3: with a conversion entry of 200 g per each and an original
quantity of 0.6 kg, the engine computes 3 each-units, applies the
conversion, and back-derives the unit price as a third of the net price,
so that quantity times unit price equals the net price exactly. -/
theorem c3_conversion_correctness (u n : ℚ) :
    eachUnitsOf (3/5) 200 = 3 ∧
    (convertDecimalQuantity cacheX200 (c3Item u n)).quantity = 3 ∧
    (convertDecimalQuantity cacheX200 (c3Item u n)).conversionApplied = true ∧
    (convertDecimalQuantity cacheX200 (c3Item u n)).unitPrice =
      (convertDecimalQuantity cacheX200 (c3Item u n)).netPrice / 3 ∧
    (convertDecimalQuantity cacheX200 (c3Item u n)).quantity *
      (convertDecimalQuantity cacheX200 (c3Item u n)).unitPrice =
      (convertDecimalQuantity cacheX200 (c3Item u n)).netPrice := by
  have hoq : effOrigQty (c3Item u n) = 3/5 := by
    simp only [effOrigQty, c3Item]
    exact truthyD_some_of_ne _ _ (by norm_num)
  have h1 : isDecimalQuantity (effOrigQty (c3Item u n)) = true := by
    rw [hoq]; exact isDecimal_threeFifths
  have h2 : List.lookup (c3Item u n).productCode cacheX200 = some { eachWeight := 200 } := rfl
  have h3 : ¬ (1/1000 <
      |roundedEachOf (effOrigQty (c3Item u n)) (200 : ℚ) -
        (jsRound (roundedEachOf (effOrigQty (c3Item u n)) (200 : ℚ)) : ℚ)|) := by
    rw [hoq]; exact notStill_threeFifths_200
  rw [convertDecimalQuantity_success cacheX200 (c3Item u n) { eachWeight := 200 } h1 h2 h3]
  rw [hoq]
  refine ⟨by norm_num [eachUnitsOf], ?_, ?_, ?_, ?_⟩
  · show ((jsRound (roundedEachOf (3/5) (200:ℚ)) : ℤ) : ℚ) = 3
    rw [roundedEachOf_threeFifths_200, jsRound_three]; norm_num
  · rfl
  · show (3/5 : ℚ) * (c3Item u n).unitPrice / _ = (3/5 : ℚ) * (c3Item u n).unitPrice / 3
    rw [roundedEachOf_threeFifths_200, jsRound_three]; norm_num
  · show ((jsRound (roundedEachOf (3/5) (200:ℚ)) : ℤ) : ℚ) *
        ((3/5 : ℚ) * (c3Item u n).unitPrice / _) = (3/5 : ℚ) * (c3Item u n).unitPrice
    rw [roundedEachOf_threeFifths_200, jsRound_three]
    push_cast
    ring

theorem effOrigQty_halfKiloItemY : effOrigQty halfKiloItemY = 1/2 := by
  simp only [effOrigQty, halfKiloItemY]
  exact truthyD_some_of_ne _ _ (by norm_num)

/-- Claim C4: a fractional quantity that cannot be converted keeps its
original value and gets `hasWarning` without `conversionApplied`, both
when no conversion entry exists and when the converted amount is still
decimal; the two cases carry distinct notes (shown on the spec's own
examples: 0.6 kg with an empty cache versus 0.5 kg against a 333 g
entry). -/
theorem c4_warning_paths (cache : List (String × Conversion)) (p : Product) (c : Conversion)
    (hd : isDecimalQuantity (effOrigQty p) = true) :
    (List.lookup p.productCode cache = none →
      ((convertDecimalQuantity cache p).quantity = effOrigQty p ∧
       (convertDecimalQuantity cache p).hasWarning = true ∧
       (convertDecimalQuantity cache p).conversionApplied = false ∧
       (convertDecimalQuantity cache p).conversionNote =
         ConversionNote.mayRoundIncorrectly (effOrigQty p))) ∧
    (List.lookup p.productCode cache = some c →
      1/1000 < |roundedEachOf (effOrigQty p) c.eachWeight -
        (jsRound (roundedEachOf (effOrigQty p) c.eachWeight) : ℚ)| →
      ((convertDecimalQuantity cache p).quantity = effOrigQty p ∧
       (convertDecimalQuantity cache p).hasWarning = true ∧
       (convertDecimalQuantity cache p).conversionApplied = false ∧
       (convertDecimalQuantity cache p).conversionNote =
         ConversionNote.stillDecimal (effOrigQty p)
           (roundedEachOf (effOrigQty p) c.eachWeight) p.productCode)) ∧
    (convertDecimalQuantity ([] : List (String × Conversion)) snappedItemX).conversionNote ≠
      (convertDecimalQuantity cacheY333 halfKiloItemY).conversionNote := by
  have hdX : isDecimalQuantity (effOrigQty snappedItemX) = true := by
    rw [effOrigQty_snappedItemX]; exact isDecimal_threeFifths
  have hdY : isDecimalQuantity (effOrigQty halfKiloItemY) = true := by
    rw [effOrigQty_halfKiloItemY]; exact isDecimal_half
  have hstillY : 1/1000 <
      |roundedEachOf (effOrigQty halfKiloItemY) (333 : ℚ) -
        (jsRound (roundedEachOf (effOrigQty halfKiloItemY) (333 : ℚ)) : ℚ)| := by
    rw [effOrigQty_halfKiloItemY]; exact still_half_333
  refine ⟨?_, ?_, ?_⟩
  · intro hnone
    rw [convertDecimalQuantity_noEntry cache p hd hnone]
    exact ⟨rfl, rfl, rfl, rfl⟩
  · intro hsome hstill
    rw [convertDecimalQuantity_stillDecimal cache p c hd hsome hstill]
    exact ⟨rfl, rfl, rfl, rfl⟩
  · rw [convertDecimalQuantity_noEntry ([] : List (String × Conversion)) snappedItemX hdX rfl]
    rw [convertDecimalQuantity_stillDecimal cacheY333 halfKiloItemY { eachWeight := 333 }
      hdY rfl hstillY]
    simp

/-- Witness for claim C4 at the concrete 0.6 kg item with an empty
conversion cache. -/
theorem c4_warning_paths_witness :
    isDecimalQuantity (effOrigQty snappedItemX) = true ∧
    ((convertDecimalQuantity ([] : List (String × Conversion)) snappedItemX).quantity =
        effOrigQty snappedItemX ∧
     (convertDecimalQuantity ([] : List (String × Conversion)) snappedItemX).hasWarning = true ∧
     (convertDecimalQuantity ([] : List (String × Conversion)) snappedItemX).conversionApplied =
        false ∧
     (convertDecimalQuantity ([] : List (String × Conversion)) snappedItemX).conversionNote =
        ConversionNote.mayRoundIncorrectly (effOrigQty snappedItemX)) :=
  ⟨by rw [effOrigQty_snappedItemX]; exact isDecimal_threeFifths,
   (c4_warning_paths ([] : List (String × Conversion)) snappedItemX { eachWeight := 333 }
      (by rw [effOrigQty_snappedItemX]; exact isDecimal_threeFifths)).1 rfl⟩

theorem foldl_add_netPrice (ps : List Product) (a : ℚ) :
    ps.foldl (fun sum product => sum + product.netPrice) a =
      a + (ps.map Product.netPrice).sum := by
  induction ps generalizing a with
  | nil => simp
  | cons head tail ih => simp [ih, add_assoc]

theorem sumNetPrices_eq_mapSum (ps : List Product) :
    sumNetPrices ps = (ps.map Product.netPrice).sum := by
  simp [sumNetPrices, foldl_add_netPrice]

/-- Claim C5 (amended): the total is recomputed to the sum of the current
net prices by `processOrderProducts` and by the quantity branch of
`updateProductField`.  (As stated the claim fails: the product-code
branch of `updateProductField` re-runs the normalizer without recomputing
the total; see the counterexample.) -/
theorem c5_total_amended (cache : List (String × Conversion)) (o : Order) (idx : ℕ)
    (v : Option ℚ) :
    (processOrderProducts cache o).total =
      ((processOrderProducts cache o).products.map Product.netPrice).sum ∧
    (idx < o.products.length →
      (updateProductField cache o idx (FieldEdit.quantity v)).total =
        ((updateProductField cache o idx (FieldEdit.quantity v)).products.map
          Product.netPrice).sum) := by
  constructor
  · simp only [processOrderProducts]
    exact sumNetPrices_eq_mapSum _
  · intro h
    have hp : o.products.get? idx = some (o.products.get ⟨idx, h⟩) := List.get?_eq_get h
    simp only [updateProductField, hp]
    exact sumNetPrices_eq_mapSum _

/-- Evaluation of the product-code edit on the once-processed order: the
re-run of the normalizer corrupts the item's net price to 1.2 while the
stored total stays 6. -/
theorem c5_edit_eval :
    updateProductField cacheX200 (processOrderProducts cacheX200
        { products := [freshItemX], total := 0 }) 0 (FieldEdit.productCode ("x")) =
      { products := [reconvertedItemX], total := 6 } := by
  rw [processOnce_eval]
  have hup : jsToUpper ("x") = "X" := rfl
  have hconv : convertDecimalQuantity cacheX200
      { convertedItemX with productCode := jsToUpper ("x") } = reconvertedItemX :=
    convert_convertedItemX
  simp only [updateProductField, List.get?, hconv]
  rfl

/-- Claim C5, counterexample to the claim as stated: after a single
product-code edit through `updateProductField` the order total (still 6)
no longer equals the sum of the current net prices (1.2). -/
theorem c5_total_counterexample :
    (updateProductField cacheX200 (processOrderProducts cacheX200
        { products := [freshItemX], total := 0 }) 0 (FieldEdit.productCode ("x"))).total = 6 ∧
    ((updateProductField cacheX200 (processOrderProducts cacheX200
        { products := [freshItemX], total := 0 }) 0
        (FieldEdit.productCode ("x"))).products.map Product.netPrice).sum = 6/5 ∧
    (updateProductField cacheX200 (processOrderProducts cacheX200
        { products := [freshItemX], total := 0 }) 0 (FieldEdit.productCode ("x"))).total ≠
      ((updateProductField cacheX200 (processOrderProducts cacheX200
          { products := [freshItemX], total := 0 }) 0
          (FieldEdit.productCode ("x"))).products.map Product.netPrice).sum := by
  rw [c5_edit_eval]
  refine ⟨rfl, ?_, ?_⟩
  · simp [reconvertedItemX, snappedItemX, freshItemX]
  · simp [reconvertedItemX, snappedItemX, freshItemX]
    norm_num

/-- Witness for the amended claim C5: a quantity edit at a valid index
restores the total invariant. -/
theorem c5_total_witness :
    (0:ℕ) < ({ products := [freshItemX], total := 0 } : Order).products.length ∧
    (updateProductField cacheX200 { products := [freshItemX], total := 0 } 0
        (FieldEdit.quantity (some (1/2)))).total =
      ((updateProductField cacheX200 { products := [freshItemX], total := 0 } 0
          (FieldEdit.quantity (some (1/2)))).products.map Product.netPrice).sum :=
  ⟨by simp,
   (c5_total_amended cacheX200 { products := [freshItemX], total := 0 } 0 (some (1/2))).2
     (by simp)⟩

/-- Claim C6: against the catalog holding R = Rosemary and
HM107E = Rosemary Dust, the reverse lookup of the description
Herb Rosemary resolves - through the simple strategy, the first with a
match - to code R, never to HM107E. -/
theorem c6_reverse_lookup_priority :
    findProductByDescription rosemaryCatalog ("Herb Rosemary") =
      some { sku := "R", description := "Rosemary", matched := "reverse-simple",
             originalSku := "Herb Rosemary" } ∧
    (findProductByDescription rosemaryCatalog ("Herb Rosemary")).map ReverseMatch.sku ≠
      some ("HM107E") := by
  constructor
  · decide
  · decide

/-- Claim C7: on a line item whose code the catalog does not know but whose
description reverse-resolves to a different SKU, the part_001 copy of
`enhanceProductWithCatalog` replaces the code and keeps the pre-resolution
code in `originalProductCode`; the part_003 copy performs the assignments
in the wrong order and stores the NEW SKU there, contradicting its own
comment. -/
theorem c7_originalProductCode_bug :
    (enhanceProductWithCatalog rosemaryCatalog [] roseItem).productCode = "R" ∧
    (enhanceProductWithCatalog rosemaryCatalog [] roseItem).originalProductCode =
      some ("ROSE1") ∧
    (enhanceProductWithCatalogUpd rosemaryCatalog [] roseItem).productCode = "R" ∧
    (enhanceProductWithCatalogUpd rosemaryCatalog [] roseItem).originalProductCode =
      some ("R") := by
  refine ⟨?_, ?_, ?_, ?_⟩ <;> decide

/-- Claim C8: template classification is total (the embedding returns a
`TemplateType` for every text by construction) and ordered: a text
containing the Picking Note marker classifies as picking note even when
the Consolidated marker is also present, the Consolidated marker alone
classifies as consolidated, and everything else falls back to standard. -/
theorem c8_template_classification (text : String) :
    (jsIncludes text ("Picking Note") = true →
      classifyTemplate text = TemplateType.pickingNote) ∧
    (jsIncludes text ("Picking Note") = false →
      jsIncludes text ("Consolidated Purchase Order") = true →
      classifyTemplate text = TemplateType.consolidated) ∧
    (jsIncludes text ("Picking Note") = false →
      jsIncludes text ("Consolidated Purchase Order") = false →
      classifyTemplate text = TemplateType.standard) := by
  refine ⟨fun h => ?_, fun h1 h2 => ?_, fun h1 h2 => ?_⟩ <;> simp [classifyTemplate, *]

/-- Witness for claim C8 on a text containing both marker substrings. -/
theorem c8_template_classification_witness :
    jsIncludes ("Picking Note Consolidated Purchase Order") ("Picking Note") = true ∧
    jsIncludes ("Picking Note Consolidated Purchase Order")
        ("Consolidated Purchase Order") = true ∧
    classifyTemplate ("Picking Note Consolidated Purchase Order") =
      TemplateType.pickingNote :=
  ⟨by decide, by decide,
   (c8_template_classification ("Picking Note Consolidated Purchase Order")).1 (by decide)⟩

theorem consolidatedPush_guard (cands : List RawProduct) (acc : List RawProduct × ℚ)
    (hacc : ∀ c ∈ acc.1, 0 < c.quantity ∧ c.productCode ≠ "" ∧ 0 < c.unitPrice) :
    ∀ c ∈ (cands.foldl consolidatedPush acc).1,
      0 < c.quantity ∧ c.productCode ≠ "" ∧ 0 < c.unitPrice := by
  induction cands generalizing acc with
  | nil => exact hacc
  | cons head tail ih =>
    simp only [List.foldl]
    apply ih
    intro d hd
    by_cases hg : 0 < head.quantity ∧ head.productCode ≠ "" ∧ 0 < head.unitPrice
    · simp only [consolidatedPush] at hd
      rw [if_pos hg] at hd
      rcases List.mem_append.mp hd with hmem | hmem
      · exact hacc d hmem
      · have hde : d = head := List.mem_singleton.mp hmem
        subst hde
        exact hg
    · simp only [consolidatedPush] at hd
      rw [if_neg hg] at hd
      exact hacc d hd

theorem standardPush_all (cands : List RawProduct) (acc : List RawProduct × ℚ) :
    (cands.foldl (fun acc product => (acc.1 ++ [product], acc.2 + product.netPrice)) acc).1 =
      acc.1 ++ cands := by
  induction cands generalizing acc with
  | nil => simp
  | cons head tail ih => simp [List.foldl, ih]

/-- Claim C9: the consolidated parser accepts a candidate only under the
guard `quantity > 0` and non-empty code and `unitPrice > 0`, while the
standard parser accepts every candidate its pattern matched,
unconditionally - the two acceptance policies are distinct. -/
theorem c9_acceptance (cands1 cands2 cands : List RawProduct) :
    (∀ c ∈ (parseConsolidatedProducts cands1 cands2).1,
      0 < c.quantity ∧ c.productCode ≠ "" ∧ 0 < c.unitPrice) ∧
    (parseStandardProducts cands).1 = cands := by
  constructor
  · simp only [parseConsolidatedProducts]
    by_cases hl : 0 < (cands1.foldl consolidatedPush ([], 0)).1.length
    · rw [if_pos hl]
      exact consolidatedPush_guard cands1 ([], 0) (by simp)
    · rw [if_neg hl]
      exact consolidatedPush_guard cands2 _ (consolidatedPush_guard cands1 ([], 0) (by simp))
  · simpa using standardPush_all cands (([], 0) : List RawProduct × ℚ)

/-- Witness for claim C9: the zero-priced candidate is accepted by the
standard parser; a fully-guarded candidate accepted by the consolidated
parser satisfies the guard. -/
theorem c9_acceptance_witness :
    (parseStandardProducts [zeroPriceCandidate]).1 = [zeroPriceCandidate] ∧
    (0 < acceptedCandidate.quantity ∧ acceptedCandidate.productCode ≠ "" ∧
      0 < acceptedCandidate.unitPrice) := by
  have hg : 0 < acceptedCandidate.quantity ∧ acceptedCandidate.productCode ≠ "" ∧
      0 < acceptedCandidate.unitPrice := by
    refine ⟨?_, ?_, ?_⟩
    · norm_num [acceptedCandidate]
    · simp [acceptedCandidate]
    · norm_num [acceptedCandidate]
  have heval : (parseConsolidatedProducts [acceptedCandidate] []).1 = [acceptedCandidate] := by
    simp only [parseConsolidatedProducts, List.foldl, consolidatedPush]
    rw [if_pos hg]
    simp
  exact ⟨(c9_acceptance [] [] [zeroPriceCandidate]).2,
    (c9_acceptance [acceptedCandidate] [] []).1 acceptedCandidate
      (by rw [heval]; exact List.mem_singleton.mpr rfl)⟩
